import Mathlib

/-!
Verification of the auth cookie relay layer in `users/views.py`.

The repository is a thin set of Django REST framework views that wrap
delegate token operations (djoser social auth, simplejwt obtain/refresh/
verify) and copy token strings from the delegate response body into HTTP
cookies.  We embed the request/response data model shallowly: JSON bodies
and inbound cookie jars are association lists of string pairs, a response
carries its status code, body, the cookies set on it and the cookies it
deletes, and each view's `post`/`get` method becomes a Lean function
parameterized by the delegate (the `super().post` call) and by the
`settings.AUTH_COOKIE_*` configuration record.
-/

namespace DRFGeneralAPIs

/-- Attributes passed to a single `response.set_cookie` call:
`max_age`, `path`, `secure`, `httponly`, `samesite`. -/
structure CookieAttrs where
  max_age : Nat
  path : String
  secure : Bool
  httponly : Bool
  samesite : String

deriving instance DecidableEq for CookieAttrs

/-- The `settings.AUTH_COOKIE_*` configuration values read by the views. -/
structure AuthSettings where
  AUTH_COOKIE_ACCESS_MAX_AGE : Nat
  AUTH_COOKIE_REFRESH_MAX_AGE : Nat
  AUTH_COOKIE_PATH : String
  AUTH_COOKIE_SECURE : Bool
  AUTH_COOKIE_HTTP_ONLY : Bool
  AUTH_COOKIE_SAMESITE : String

deriving instance DecidableEq for AuthSettings

/-- One cookie recorded on a response by `set_cookie`: its name, its value
(`none` models Python `None`, as `response.data.get` yields on a missing
field), and its attributes. -/
structure SetCookie where
  name : String
  value : Option String
  attrs : CookieAttrs

deriving instance DecidableEq for SetCookie

/-- An inbound HTTP request as the views see it: `request.COOKIES` and the
parsed body `request.data`, both string-keyed dictionaries. -/
structure HttpRequest where
  COOKIES : List (String × String)
  data : List (String × String)

deriving instance DecidableEq for HttpRequest

/-- An HTTP response: status code, parsed body `response.data`, the cookie
jar written by `set_cookie` calls, and the names passed to
`delete_cookie`. -/
structure HttpResponse where
  status_code : Nat
  data : List (String × String)
  cookies : List SetCookie
  deleted : List String

deriving instance DecidableEq for HttpResponse

/-- Dictionary read, Python `d.get(key)`: the value at `key`, or `none`. -/
def dget : List (String × String) → String → Option String
  | [], _ => none
  | (k, v) :: rest, key => if k = key then some v else dget rest key

/-- Dictionary write, Python `d[key] = val`: replace the entry in place if
the key is present, else append it. -/
def dset : List (String × String) → String → String → List (String × String)
  | [], key, val => [(key, val)]
  | (k, v) :: rest, key, val =>
    if k = key then (key, val) :: rest else (k, v) :: dset rest key val

/-- Read a cookie jar by cookie name. -/
def jarGet : List SetCookie → String → Option SetCookie
  | [], _ => none
  | c :: rest, n => if c.name = n then some c else jarGet rest n

/-- Write a cookie jar, with the dictionary semantics of Django's
`response.cookies[key] = value`: replace in place or append. -/
def jarSet : List SetCookie → SetCookie → List SetCookie
  | [], c => [c]
  | c0 :: rest, c => if c0.name = c.name then c :: rest else c0 :: jarSet rest c

/-- Python truthiness of `request.COOKIES.get(name)`: `None` and the empty
string are falsy, every other string is truthy. -/
def truthy : Option String → Bool
  | none => false
  | some s => s != ""

/-- The string held by an optional value known to be present (used only
under a `truthy` guard, where the value is a `some`). -/
def strOf : Option String → String
  | none => ""
  | some s => s

/-- Django `response.set_cookie(name, value, max_age=.., path=.., secure=..,
httponly=.., samesite=..)`: record the cookie in the response's jar. -/
def set_cookie (response : HttpResponse) (name : String) (value : Option String)
    (attrs : CookieAttrs) : HttpResponse :=
  { response with cookies := jarSet response.cookies ⟨name, value, attrs⟩ }

/-- Django `response.delete_cookie(name)`: record an instruction to delete
the named cookie. -/
def delete_cookie (response : HttpResponse) (name : String) : HttpResponse :=
  { response with deleted := response.deleted ++ [name] }

/-- The attribute tuple every view passes when setting the `access` cookie. -/
def accessAttrs (s : AuthSettings) : CookieAttrs :=
  ⟨s.AUTH_COOKIE_ACCESS_MAX_AGE, s.AUTH_COOKIE_PATH, s.AUTH_COOKIE_SECURE,
   s.AUTH_COOKIE_HTTP_ONLY, s.AUTH_COOKIE_SAMESITE⟩

/-- The attribute tuple the login views pass when setting the `refresh`
cookie (identical to `accessAttrs` except for the max age). -/
def refreshAttrs (s : AuthSettings) : CookieAttrs :=
  ⟨s.AUTH_COOKIE_REFRESH_MAX_AGE, s.AUTH_COOKIE_PATH, s.AUTH_COOKIE_SECURE,
   s.AUTH_COOKIE_HTTP_ONLY, s.AUTH_COOKIE_SAMESITE⟩

/-- `CustomProviderAuthView.post`: delegate to `ProviderAuthView.post`; on
status 201 read `access` and `refresh` from the body and set both cookies. -/
def providerAuthPost (s : AuthSettings) (delegate : HttpRequest → HttpResponse)
    (request : HttpRequest) : HttpResponse :=
  let response := delegate request
  if response.status_code = 201 then
    let access_token := dget response.data "access"
    let refresh_token := dget response.data "refresh"
    set_cookie (set_cookie response "access" access_token (accessAttrs s))
      "refresh" refresh_token (refreshAttrs s)
  else
    response

/-- `CustomTokenObtainPairView.post`: delegate to `TokenObtainPairView.post`;
on status 200 read `access` and `refresh` from the body and set both
cookies. -/
def tokenObtainPairPost (s : AuthSettings) (delegate : HttpRequest → HttpResponse)
    (request : HttpRequest) : HttpResponse :=
  let response := delegate request
  if response.status_code = 200 then
    let access_token := dget response.data "access"
    let refresh_token := dget response.data "refresh"
    set_cookie (set_cookie response "access" access_token (accessAttrs s))
      "refresh" refresh_token (refreshAttrs s)
  else
    response

/-- The request mutation at the top of `CustomTokenRefreshView.post`:
`refresh_token = request.COOKIES.get("refresh"); if refresh_token:
request.data["refresh"] = refresh_token`. -/
def refreshInject (request : HttpRequest) : HttpRequest :=
  let refresh_token := dget request.COOKIES "refresh"
  if truthy refresh_token then
    { request with data := dset request.data "refresh" (strOf refresh_token) }
  else
    request

/-- The response half of `CustomTokenRefreshView.post`: on status 200 read
`access` from the body and set the access cookie only. -/
def tokenRefreshRespond (s : AuthSettings) (response : HttpResponse) : HttpResponse :=
  if response.status_code = 200 then
    set_cookie response "access" (dget response.data "access") (accessAttrs s)
  else
    response

/-- `CustomTokenRefreshView.post`: inject the inbound refresh cookie if
truthy, delegate to `TokenRefreshView.post`, then set the access cookie on
success. -/
def tokenRefreshPost (s : AuthSettings) (delegate : HttpRequest → HttpResponse)
    (request : HttpRequest) : HttpResponse :=
  tokenRefreshRespond s (delegate (refreshInject request))

/-- The request mutation in `CustomTokenVerifyView.post`:
`access_token = request.COOKIES.get("access"); if access_token:
request.data["token"] = access_token`. -/
def verifyInject (request : HttpRequest) : HttpRequest :=
  let access_token := dget request.COOKIES "access"
  if truthy access_token then
    { request with data := dset request.data "token" (strOf access_token) }
  else
    request

/-- `CustomTokenVerifyView.post`: inject the inbound access cookie if
truthy, then return the delegate's response unmodified. -/
def tokenVerifyPost (delegate : HttpRequest → HttpResponse)
    (request : HttpRequest) : HttpResponse :=
  delegate (verifyInject request)

/-- `LogoutView.post`: a fresh 204 response with both cookies deleted. -/
def logoutPost (_request : HttpRequest) : HttpResponse :=
  delete_cookie (delete_cookie ⟨204, [], [], []⟩ "access") "refresh"

/-- The literal body text of `PrivacyPolicyView.get`. -/
def privacy_policy_text : String :=
  "This is the privacy policy of our application. We value your privacy and are committed to protecting your personal information."

/-- `PrivacyPolicyView.get`. -/
def privacyPolicyGet (_request : HttpRequest) : HttpResponse :=
  ⟨200, [("message", privacy_policy_text)], [], []⟩

/-- The literal body text of `TermsOfServiceView.get` (a triple-quoted
Python string: leading newline and indentation included). -/
def terms_of_service_text : String :=
  "\n        These are the terms of service of our application. By using our service, you agree to comply with these terms.\n        "

/-- `TermsOfServiceView.get`. -/
def termsOfServiceGet (_request : HttpRequest) : HttpResponse :=
  ⟨200, [("message", terms_of_service_text)], [], []⟩

/-- The literal body text of `DataDeletionPolicyView.get`. -/
def data_deletion_policy_text : String :=
  "\n        This is the data deletion policy of our application. You can request the deletion of your personal data at any time.\n        "

/-- `DataDeletionPolicyView.get`. -/
def dataDeletionPolicyGet (_request : HttpRequest) : HttpResponse :=
  ⟨200, [("message", data_deletion_policy_text)], [], []⟩

/-- Concrete settings used in witnesses. -/
def s0 : AuthSettings := ⟨300, 86400, "/", true, true, "None"⟩

/-- A request with no cookies and no body. -/
def reqEmpty : HttpRequest := ⟨[], []⟩

/-- A request with inbound cookie `refresh="R"` and no body refresh field. -/
def reqR : HttpRequest := ⟨[("refresh", "R")], []⟩

/-- A request with inbound cookie `access="A"` and a body token field `B`. -/
def reqA : HttpRequest := ⟨[("access", "A")], [("token", "B")]⟩

/-- A request whose `refresh` cookie is present but empty, with a
body-supplied refresh field `B`. -/
def reqEmptyRefresh : HttpRequest := ⟨[("refresh", "")], [("refresh", "B")]⟩

/-- A request whose `access` cookie is present but empty, with a
body-supplied token field `B`. -/
def reqEmptyAccess : HttpRequest := ⟨[("access", "")], [("token", "B")]⟩

/-- A delegate answering 200 with both token fields. -/
def dOk : HttpRequest → HttpResponse :=
  fun _ => ⟨200, [("access", "A1"), ("refresh", "R1")], [], []⟩

/-- A delegate answering 201 with both token fields. -/
def dCreated : HttpRequest → HttpResponse :=
  fun _ => ⟨201, [("access", "A1"), ("refresh", "R1")], [], []⟩

/-- A delegate answering 401 with an error body. -/
def dBad : HttpRequest → HttpResponse :=
  fun _ => ⟨401, [("detail", "bad")], [], []⟩

/-- A delegate answering 200 with an empty body. -/
def dOkNoTokens : HttpRequest → HttpResponse := fun _ => ⟨200, [], [], []⟩

/-- A delegate answering 201 with an empty body. -/
def dCreatedNoTokens : HttpRequest → HttpResponse := fun _ => ⟨201, [], [], []⟩

/-- A delegate that echoes the refresh-token field it receives back in its
`access` body field, so proofs can observe what the delegate was invoked
with. -/
def dEchoRefresh : HttpRequest → HttpResponse :=
  fun r => ⟨200, [("access", strOf (dget r.data "refresh"))], [], []⟩

/-- A delegate that echoes the token field it receives back in its `echo`
body field. -/
def dEchoToken : HttpRequest → HttpResponse :=
  fun r => ⟨200, [("echo", strOf (dget r.data "token"))], [], []⟩

theorem dget_dset_self (l : List (String × String)) (k v : String) :
    dget (dset l k v) k = some v := by
  induction l with
  | nil => simp [dset, dget]
  | cons p rest ih =>
    obtain ⟨pk, pv⟩ := p
    by_cases h : pk = k
    · simp [dset, dget, h]
    · simp [dset, dget, h, ih]

theorem jarGet_jarSet_self (jar : List SetCookie) (c : SetCookie) :
    jarGet (jarSet jar c) c.name = some c := by
  induction jar with
  | nil => simp [jarSet, jarGet]
  | cons c0 rest ih =>
    by_cases h : c0.name = c.name
    · simp [jarSet, jarGet, h]
    · simp [jarSet, jarGet, h, ih]

theorem jarGet_jarSet_ne (jar : List SetCookie) (c : SetCookie) (n : String)
    (h : c.name ≠ n) : jarGet (jarSet jar c) n = jarGet jar n := by
  induction jar with
  | nil => simp [jarSet, jarGet, h]
  | cons c0 rest ih =>
    by_cases h0 : c0.name = c.name
    · simp [jarSet, jarGet, h0, h]
    · simp [jarSet, jarGet, h0, ih]

theorem truthy_some_ne (v : String) (hv : v ≠ "") : truthy (some v) = true := by
  simp [truthy, hv]

theorem providerAuthPost_success (s : AuthSettings)
    (delegate : HttpRequest → HttpResponse) (request : HttpRequest)
    (h : (delegate request).status_code = 201) :
    providerAuthPost s delegate request =
      set_cookie
        (set_cookie (delegate request) "access"
          (dget (delegate request).data "access") (accessAttrs s))
        "refresh" (dget (delegate request).data "refresh") (refreshAttrs s) := by
  simp [providerAuthPost, h]

theorem providerAuthPost_failure (s : AuthSettings)
    (delegate : HttpRequest → HttpResponse) (request : HttpRequest)
    (h : (delegate request).status_code ≠ 201) :
    providerAuthPost s delegate request = delegate request := by
  simp [providerAuthPost, h]

theorem tokenObtainPairPost_success (s : AuthSettings)
    (delegate : HttpRequest → HttpResponse) (request : HttpRequest)
    (h : (delegate request).status_code = 200) :
    tokenObtainPairPost s delegate request =
      set_cookie
        (set_cookie (delegate request) "access"
          (dget (delegate request).data "access") (accessAttrs s))
        "refresh" (dget (delegate request).data "refresh") (refreshAttrs s) := by
  simp [tokenObtainPairPost, h]

theorem tokenObtainPairPost_failure (s : AuthSettings)
    (delegate : HttpRequest → HttpResponse) (request : HttpRequest)
    (h : (delegate request).status_code ≠ 200) :
    tokenObtainPairPost s delegate request = delegate request := by
  simp [tokenObtainPairPost, h]

theorem tokenRefreshRespond_success (s : AuthSettings) (response : HttpResponse)
    (h : response.status_code = 200) :
    tokenRefreshRespond s response =
      set_cookie response "access" (dget response.data "access") (accessAttrs s) := by
  simp [tokenRefreshRespond, h]

theorem tokenRefreshRespond_failure (s : AuthSettings) (response : HttpResponse)
    (h : response.status_code ≠ 200) :
    tokenRefreshRespond s response = response := by
  simp [tokenRefreshRespond, h]

theorem jarGet_login_cookies (jar : List SetCookie) (v1 v2 : Option String)
    (a1 a2 : CookieAttrs) :
    jarGet (jarSet (jarSet jar ⟨"access", v1, a1⟩) ⟨"refresh", v2, a2⟩) "access" =
      some ⟨"access", v1, a1⟩ ∧
    jarGet (jarSet (jarSet jar ⟨"access", v1, a1⟩) ⟨"refresh", v2, a2⟩) "refresh" =
      some ⟨"refresh", v2, a2⟩ := by
  have hne : ("refresh" : String) ≠ "access" := by decide
  constructor
  · rw [jarGet_jarSet_ne _ ⟨"refresh", v2, a2⟩ "access" hne]
    exact jarGet_jarSet_self _ _
  · exact jarGet_jarSet_self _ _

/-- Claim C1: for both login operations, on their defined success status
(social-provider login 201, password login 200), the handler sets an
`access` cookie whose value equals the response body's `access` field and a
`refresh` cookie whose value equals the body's `refresh` field, each with
the configured attributes: the access and refresh max ages respectively,
and the shared path, secure, http-only and same-site settings. -/
theorem login_success_sets_token_cookies (s : AuthSettings)
    (delegate : HttpRequest → HttpResponse) (request : HttpRequest) :
    ((delegate request).status_code = 201 →
      jarGet (providerAuthPost s delegate request).cookies "access" =
        some ⟨"access", dget (delegate request).data "access", accessAttrs s⟩ ∧
      jarGet (providerAuthPost s delegate request).cookies "refresh" =
        some ⟨"refresh", dget (delegate request).data "refresh", refreshAttrs s⟩) ∧
    ((delegate request).status_code = 200 →
      jarGet (tokenObtainPairPost s delegate request).cookies "access" =
        some ⟨"access", dget (delegate request).data "access", accessAttrs s⟩ ∧
      jarGet (tokenObtainPairPost s delegate request).cookies "refresh" =
        some ⟨"refresh", dget (delegate request).data "refresh", refreshAttrs s⟩) := by
  constructor
  · intro h
    rw [providerAuthPost_success s delegate request h]
    exact jarGet_login_cookies _ _ _ _ _
  · intro h
    rw [tokenObtainPairPost_success s delegate request h]
    exact jarGet_login_cookies _ _ _ _ _

/-- Witness for C1: concrete delegates answering 201 and 200 with token
fields `A1` and `R1`. -/
theorem login_success_sets_token_cookies_witness :
    (jarGet (providerAuthPost s0 dCreated reqEmpty).cookies "access" =
        some ⟨"access", dget (dCreated reqEmpty).data "access", accessAttrs s0⟩ ∧
      jarGet (providerAuthPost s0 dCreated reqEmpty).cookies "refresh" =
        some ⟨"refresh", dget (dCreated reqEmpty).data "refresh", refreshAttrs s0⟩) ∧
    (jarGet (tokenObtainPairPost s0 dOk reqEmpty).cookies "access" =
        some ⟨"access", dget (dOk reqEmpty).data "access", accessAttrs s0⟩ ∧
      jarGet (tokenObtainPairPost s0 dOk reqEmpty).cookies "refresh" =
        some ⟨"refresh", dget (dOk reqEmpty).data "refresh", refreshAttrs s0⟩) :=
  ⟨(login_success_sets_token_cookies s0 dCreated reqEmpty).1 rfl,
   (login_success_sets_token_cookies s0 dOk reqEmpty).2 rfl⟩

/-- Claim C4: for both login operations, on every non-success status, no
cookies are added and the delegate's response is returned unmodified. -/
theorem login_failure_adds_no_cookies (s : AuthSettings)
    (delegate : HttpRequest → HttpResponse) (request : HttpRequest) :
    ((delegate request).status_code ≠ 201 →
      providerAuthPost s delegate request = delegate request) ∧
    ((delegate request).status_code ≠ 200 →
      tokenObtainPairPost s delegate request = delegate request) :=
  ⟨providerAuthPost_failure s delegate request,
   tokenObtainPairPost_failure s delegate request⟩

/-- Witness for C4: a delegate answering 401 passes through both login
handlers unmodified. -/
theorem login_failure_adds_no_cookies_witness :
    providerAuthPost s0 dBad reqEmpty = dBad reqEmpty ∧
    tokenObtainPairPost s0 dBad reqEmpty = dBad reqEmpty :=
  ⟨(login_failure_adds_no_cookies s0 dBad reqEmpty).1 (by decide),
   (login_failure_adds_no_cookies s0 dBad reqEmpty).2 (by decide)⟩

/-- Claim C5: the refresh handler, on delegate status 200, sets only the
`access` cookie (with the body's `access` field and the configured access
attributes), leaving the `refresh` cookie entry untouched; on any non-200
status it sets no cookie and passes the response through. -/
theorem refresh_success_sets_access_only (s : AuthSettings)
    (delegate : HttpRequest → HttpResponse) (request : HttpRequest) :
    ((delegate (refreshInject request)).status_code = 200 →
      tokenRefreshPost s delegate request =
        set_cookie (delegate (refreshInject request)) "access"
          (dget (delegate (refreshInject request)).data "access") (accessAttrs s) ∧
      jarGet (tokenRefreshPost s delegate request).cookies "access" =
        some ⟨"access", dget (delegate (refreshInject request)).data "access",
          accessAttrs s⟩ ∧
      jarGet (tokenRefreshPost s delegate request).cookies "refresh" =
        jarGet (delegate (refreshInject request)).cookies "refresh") ∧
    ((delegate (refreshInject request)).status_code ≠ 200 →
      tokenRefreshPost s delegate request = delegate (refreshInject request)) := by
  have hne : ("access" : String) ≠ "refresh" := by decide
  constructor
  · intro h
    have he : tokenRefreshPost s delegate request =
        set_cookie (delegate (refreshInject request)) "access"
          (dget (delegate (refreshInject request)).data "access") (accessAttrs s) :=
      tokenRefreshRespond_success s _ h
    refine ⟨he, ?_, ?_⟩
    · rw [he]
      exact jarGet_jarSet_self _ _
    · rw [he]
      exact jarGet_jarSet_ne _ _ _ hne
  · intro h
    exact tokenRefreshRespond_failure s _ h

/-- Witness for C5: a 200 delegate gets exactly one access cookie set, a
401 delegate passes through. -/
theorem refresh_success_sets_access_only_witness :
    (tokenRefreshPost s0 dOk reqR =
        set_cookie (dOk (refreshInject reqR)) "access"
          (dget (dOk (refreshInject reqR)).data "access") (accessAttrs s0) ∧
      jarGet (tokenRefreshPost s0 dOk reqR).cookies "access" =
        some ⟨"access", dget (dOk (refreshInject reqR)).data "access", accessAttrs s0⟩ ∧
      jarGet (tokenRefreshPost s0 dOk reqR).cookies "refresh" =
        jarGet (dOk (refreshInject reqR)).cookies "refresh") ∧
    tokenRefreshPost s0 dBad reqR = dBad (refreshInject reqR) :=
  ⟨(refresh_success_sets_access_only s0 dOk reqR).1 rfl,
   (refresh_success_sets_access_only s0 dBad reqR).2 (by decide)⟩

/-- Claim C6: the logout handler, for every request whatever its cookies or
body, returns an empty 204 response that instructs deletion of both the
`access` and `refresh` cookies, and never fails. -/
theorem logout_always_deletes_both_cookies (request : HttpRequest) :
    logoutPost request = ⟨204, [], [], ["access", "refresh"]⟩ := rfl

/-- Claim C7: each policy endpoint returns status 200 with a body holding
exactly its fixed literal message, sets no cookies, deletes none, and its
response is independent of the request (no side effects, any caller). -/
theorem policy_endpoints_fixed_responses (request other : HttpRequest) :
    privacyPolicyGet request =
      ⟨200, [("message", privacy_policy_text)], [], []⟩ ∧
    privacyPolicyGet request = privacyPolicyGet other ∧
    termsOfServiceGet request =
      ⟨200, [("message", terms_of_service_text)], [], []⟩ ∧
    termsOfServiceGet request = termsOfServiceGet other ∧
    dataDeletionPolicyGet request =
      ⟨200, [("message", data_deletion_policy_text)], [], []⟩ ∧
    dataDeletionPolicyGet request = dataDeletionPolicyGet other :=
  ⟨rfl, rfl, rfl, rfl, rfl, rfl⟩

/-- Counterexample to claim C2 as stated: with the inbound cookie
`refresh=""` present and a body refresh field `B`, no injection happens and
the delegate receives `B`, not the cookie's value — observed through a
delegate that echoes its received refresh field into its `access` body
field. -/
theorem refresh_present_empty_cookie_not_injected :
    dget reqEmptyRefresh.COOKIES "refresh" = some "" ∧
    refreshInject reqEmptyRefresh = reqEmptyRefresh ∧
    dget (refreshInject reqEmptyRefresh).data "refresh" = some "B" ∧
    jarGet (tokenRefreshPost s0 dEchoRefresh reqEmptyRefresh).cookies "access" =
      some ⟨"access", some "B", accessAttrs s0⟩ ∧
    ("B" : String) ≠ "" := by decide

/-- Claim C2 amended: for the token-refresh operation, if an inbound
`refresh` cookie is present with a non-empty value, that value is injected
into the request's refresh-token field before delegating, overriding any
body-supplied value, and the delegate is invoked on the injected request. -/
theorem refresh_nonempty_cookie_injected (request : HttpRequest) (v : String)
    (hc : dget request.COOKIES "refresh" = some v) (hv : v ≠ "") :
    dget (refreshInject request).data "refresh" = some v ∧
    ∀ (s : AuthSettings) (delegate : HttpRequest → HttpResponse),
      tokenRefreshPost s delegate request =
        tokenRefreshRespond s (delegate (refreshInject request)) := by
  have ht : truthy (dget request.COOKIES "refresh") = true := by
    rw [hc]
    exact truthy_some_ne v hv
  refine ⟨?_, fun s delegate => rfl⟩
  simp [refreshInject, ht, hc, truthy_some_ne v hv, strOf, dget_dset_self]

/-- Witness for amended C2: inbound cookie `refresh="R"` and no body
refresh field; the delegate receives refresh token `R`. -/
theorem refresh_nonempty_cookie_injected_witness :
    dget (refreshInject reqR).data "refresh" = some "R" ∧
    tokenRefreshPost s0 dOk reqR = tokenRefreshRespond s0 (dOk (refreshInject reqR)) :=
  ⟨(refresh_nonempty_cookie_injected reqR "R" (by decide) (by decide)).1,
   (refresh_nonempty_cookie_injected reqR "R" (by decide) (by decide)).2 s0 dOk⟩

/-- Counterexample to claim C3 as stated: with the inbound cookie
`access=""` present and a body token field `B`, no injection happens and
the delegate receives `B`, not the cookie's value — observed through a
delegate that echoes its received token field. -/
theorem verify_present_empty_cookie_not_injected :
    dget reqEmptyAccess.COOKIES "access" = some "" ∧
    verifyInject reqEmptyAccess = reqEmptyAccess ∧
    dget (verifyInject reqEmptyAccess).data "token" = some "B" ∧
    tokenVerifyPost dEchoToken reqEmptyAccess = ⟨200, [("echo", "B")], [], []⟩ ∧
    ("B" : String) ≠ "" := by decide

/-- Claim C3 amended: for the token-verify operation, if an inbound
`access` cookie is present with a non-empty value, that value is injected
into the request's `token` field before delegating (overriding any body
content), and the delegate's response is returned unmodified regardless of
its outcome — the verify handler itself never sets a cookie. -/
theorem verify_nonempty_cookie_injected (request : HttpRequest) (v : String)
    (hc : dget request.COOKIES "access" = some v) (hv : v ≠ "") :
    dget (verifyInject request).data "token" = some v ∧
    ∀ delegate : HttpRequest → HttpResponse,
      tokenVerifyPost delegate request = delegate (verifyInject request) := by
  have ht : truthy (dget request.COOKIES "access") = true := by
    rw [hc]
    exact truthy_some_ne v hv
  refine ⟨?_, fun delegate => rfl⟩
  simp [verifyInject, ht, hc, truthy_some_ne v hv, strOf, dget_dset_self]

/-- Witness for amended C3: inbound cookie `access="A"` with body token
`B`; the delegate receives token `A` and its response comes back verbatim. -/
theorem verify_nonempty_cookie_injected_witness :
    dget (verifyInject reqA).data "token" = some "A" ∧
    tokenVerifyPost dOk reqA = dOk (verifyInject reqA) :=
  ⟨(verify_nonempty_cookie_injected reqA "A" (by decide) (by decide)).1,
   (verify_nonempty_cookie_injected reqA "A" (by decide) (by decide)).2 dOk⟩

/-- Claim C8: cookie injection in the refresh and verify handlers is gated
on truthiness, not presence: an absent cookie or a present-but-empty cookie
leaves the request (hence the body-supplied field) unchanged, and a
non-empty cookie value is written into the `refresh` (resp. `token`) body
field; injection occurs exactly in the non-empty case. -/
theorem cookie_injection_requires_truthiness (request : HttpRequest) :
    (dget request.COOKIES "refresh" = none → refreshInject request = request) ∧
    (dget request.COOKIES "refresh" = some "" → refreshInject request = request) ∧
    (∀ v : String, v ≠ "" → dget request.COOKIES "refresh" = some v →
      (refreshInject request).data = dset request.data "refresh" v) ∧
    (dget request.COOKIES "access" = none → verifyInject request = request) ∧
    (dget request.COOKIES "access" = some "" → verifyInject request = request) ∧
    (∀ v : String, v ≠ "" → dget request.COOKIES "access" = some v →
      (verifyInject request).data = dset request.data "token" v) := by
  refine ⟨?_, ?_, ?_, ?_, ?_, ?_⟩
  · intro h
    simp [refreshInject, h, truthy]
  · intro h
    simp [refreshInject, h, truthy]
  · intro v hv h
    simp [refreshInject, h, truthy_some_ne v hv, strOf]
  · intro h
    simp [verifyInject, h, truthy]
  · intro h
    simp [verifyInject, h, truthy]
  · intro v hv h
    simp [verifyInject, h, truthy_some_ne v hv, strOf]

/-- Witness for C8: each of the six cases at a concrete request — no
cookie, empty cookie, and non-empty cookie, for refresh and for access. -/
theorem cookie_injection_requires_truthiness_witness :
    refreshInject reqEmpty = reqEmpty ∧
    refreshInject reqEmptyRefresh = reqEmptyRefresh ∧
    (refreshInject reqR).data = dset reqR.data "refresh" "R" ∧
    verifyInject reqEmpty = reqEmpty ∧
    verifyInject reqEmptyAccess = reqEmptyAccess ∧
    (verifyInject reqA).data = dset reqA.data "token" "A" :=
  ⟨(cookie_injection_requires_truthiness reqEmpty).1 rfl,
   (cookie_injection_requires_truthiness reqEmptyRefresh).2.1 rfl,
   (cookie_injection_requires_truthiness reqR).2.2.1 "R" (by decide) rfl,
   (cookie_injection_requires_truthiness reqEmpty).2.2.2.1 rfl,
   (cookie_injection_requires_truthiness reqEmptyAccess).2.2.2.2.1 rfl,
   (cookie_injection_requires_truthiness reqA).2.2.2.2.2 "A" (by decide) rfl⟩

/-- Claim C9: when a success-status delegate body lacks the `access` or
`refresh` field, the field lookup yields null and the handler still sets
the corresponding cookie with that null value, preserving the success
status and the body; no handler has an error branch for a missing field. -/
theorem missing_token_fields_yield_null_cookies (s : AuthSettings)
    (delegate : HttpRequest → HttpResponse) (request : HttpRequest) :
    ((delegate request).status_code = 201 →
      dget (delegate request).data "access" = none →
      dget (delegate request).data "refresh" = none →
      jarGet (providerAuthPost s delegate request).cookies "access" =
        some ⟨"access", none, accessAttrs s⟩ ∧
      jarGet (providerAuthPost s delegate request).cookies "refresh" =
        some ⟨"refresh", none, refreshAttrs s⟩ ∧
      (providerAuthPost s delegate request).status_code = 201 ∧
      (providerAuthPost s delegate request).data = (delegate request).data) ∧
    ((delegate request).status_code = 200 →
      dget (delegate request).data "access" = none →
      dget (delegate request).data "refresh" = none →
      jarGet (tokenObtainPairPost s delegate request).cookies "access" =
        some ⟨"access", none, accessAttrs s⟩ ∧
      jarGet (tokenObtainPairPost s delegate request).cookies "refresh" =
        some ⟨"refresh", none, refreshAttrs s⟩ ∧
      (tokenObtainPairPost s delegate request).status_code = 200 ∧
      (tokenObtainPairPost s delegate request).data = (delegate request).data) ∧
    ((delegate (refreshInject request)).status_code = 200 →
      dget (delegate (refreshInject request)).data "access" = none →
      jarGet (tokenRefreshPost s delegate request).cookies "access" =
        some ⟨"access", none, accessAttrs s⟩ ∧
      (tokenRefreshPost s delegate request).status_code = 200 ∧
      (tokenRefreshPost s delegate request).data =
        (delegate (refreshInject request)).data) := by
  refine ⟨?_, ?_, ?_⟩
  · intro h ha hr
    have he := providerAuthPost_success s delegate request h
    rw [ha, hr] at he
    rw [he]
    exact ⟨(jarGet_login_cookies _ _ _ _ _).1, (jarGet_login_cookies _ _ _ _ _).2, h, rfl⟩
  · intro h ha hr
    have he := tokenObtainPairPost_success s delegate request h
    rw [ha, hr] at he
    rw [he]
    exact ⟨(jarGet_login_cookies _ _ _ _ _).1, (jarGet_login_cookies _ _ _ _ _).2, h, rfl⟩
  · intro h ha
    have he : tokenRefreshPost s delegate request =
        set_cookie (delegate (refreshInject request)) "access"
          (dget (delegate (refreshInject request)).data "access") (accessAttrs s) :=
      tokenRefreshRespond_success s _ h
    rw [ha] at he
    rw [he]
    exact ⟨jarGet_jarSet_self _ _, h, rfl⟩

/-- Witness for C9: success delegates with empty bodies; both login
handlers set null-valued cookies, the refresh handler sets a null access
cookie. -/
theorem missing_token_fields_yield_null_cookies_witness :
    (jarGet (providerAuthPost s0 dCreatedNoTokens reqEmpty).cookies "access" =
        some ⟨"access", none, accessAttrs s0⟩ ∧
      jarGet (providerAuthPost s0 dCreatedNoTokens reqEmpty).cookies "refresh" =
        some ⟨"refresh", none, refreshAttrs s0⟩ ∧
      (providerAuthPost s0 dCreatedNoTokens reqEmpty).status_code = 201 ∧
      (providerAuthPost s0 dCreatedNoTokens reqEmpty).data =
        (dCreatedNoTokens reqEmpty).data) ∧
    (jarGet (tokenObtainPairPost s0 dOkNoTokens reqEmpty).cookies "access" =
        some ⟨"access", none, accessAttrs s0⟩ ∧
      jarGet (tokenObtainPairPost s0 dOkNoTokens reqEmpty).cookies "refresh" =
        some ⟨"refresh", none, refreshAttrs s0⟩ ∧
      (tokenObtainPairPost s0 dOkNoTokens reqEmpty).status_code = 200 ∧
      (tokenObtainPairPost s0 dOkNoTokens reqEmpty).data =
        (dOkNoTokens reqEmpty).data) ∧
    (jarGet (tokenRefreshPost s0 dOkNoTokens reqEmpty).cookies "access" =
        some ⟨"access", none, accessAttrs s0⟩ ∧
      (tokenRefreshPost s0 dOkNoTokens reqEmpty).status_code = 200 ∧
      (tokenRefreshPost s0 dOkNoTokens reqEmpty).data =
        (dOkNoTokens (refreshInject reqEmpty)).data) :=
  ⟨(missing_token_fields_yield_null_cookies s0 dCreatedNoTokens reqEmpty).1 rfl rfl rfl,
   (missing_token_fields_yield_null_cookies s0 dOkNoTokens reqEmpty).2.1 rfl rfl rfl,
   (missing_token_fields_yield_null_cookies s0 dOkNoTokens reqEmpty).2.2 rfl rfl⟩

/-- Apply a list of `set_cookie` calls to a response, in order. -/
def applyCalls : HttpResponse → List (String × Option String × CookieAttrs) → HttpResponse
  | r, [] => r
  | r, (n, v, a) :: rest => applyCalls (set_cookie r n v a) rest

/-- A response that differs from `d` only by `set_cookie` calls: its
status, body and deletion list are the ones of `d`. -/
def onlyAddsCookies (d out : HttpResponse) : Prop :=
  out.status_code = d.status_code ∧ out.data = d.data ∧ out.deleted = d.deleted ∧
  ∃ calls : List (String × Option String × CookieAttrs), out = applyCalls d calls

theorem onlyAddsCookies_id (d : HttpResponse) : onlyAddsCookies d d :=
  ⟨rfl, rfl, rfl, [], rfl⟩

theorem onlyAddsCookies_one (d : HttpResponse) (n : String) (v : Option String)
    (a : CookieAttrs) : onlyAddsCookies d (set_cookie d n v a) :=
  ⟨rfl, rfl, rfl, [(n, v, a)], rfl⟩

theorem onlyAddsCookies_two (d : HttpResponse) (n1 : String) (v1 : Option String)
    (a1 : CookieAttrs) (n2 : String) (v2 : Option String) (a2 : CookieAttrs) :
    onlyAddsCookies d (set_cookie (set_cookie d n1 v1 a1) n2 v2 a2) :=
  ⟨rfl, rfl, rfl, [(n1, v1, a1), (n2, v2, a2)], rfl⟩

/-- Claim C10: every delegate-backed handler returns the delegate's
response with status code, body and deletion list unchanged in all cases;
the only modification this layer makes to a response is `set_cookie`
calls, and the verify handler returns the delegate's response verbatim. -/
theorem handlers_only_add_cookies (s : AuthSettings)
    (delegate : HttpRequest → HttpResponse) (request : HttpRequest) :
    onlyAddsCookies (delegate request) (providerAuthPost s delegate request) ∧
    onlyAddsCookies (delegate request) (tokenObtainPairPost s delegate request) ∧
    onlyAddsCookies (delegate (refreshInject request))
      (tokenRefreshPost s delegate request) ∧
    tokenVerifyPost delegate request = delegate (verifyInject request) := by
  refine ⟨?_, ?_, ?_, rfl⟩
  · by_cases h : (delegate request).status_code = 201
    · rw [providerAuthPost_success s delegate request h]
      exact onlyAddsCookies_two _ _ _ _ _ _ _
    · rw [providerAuthPost_failure s delegate request h]
      exact onlyAddsCookies_id _
  · by_cases h : (delegate request).status_code = 200
    · rw [tokenObtainPairPost_success s delegate request h]
      exact onlyAddsCookies_two _ _ _ _ _ _ _
    · rw [tokenObtainPairPost_failure s delegate request h]
      exact onlyAddsCookies_id _
  · by_cases h : (delegate (refreshInject request)).status_code = 200
    · have he : tokenRefreshPost s delegate request =
          set_cookie (delegate (refreshInject request)) "access"
            (dget (delegate (refreshInject request)).data "access") (accessAttrs s) :=
        tokenRefreshRespond_success s _ h
      rw [he]
      exact onlyAddsCookies_one _ _ _ _
    · have he : tokenRefreshPost s delegate request =
          delegate (refreshInject request) :=
        tokenRefreshRespond_failure s _ h
      rw [he]
      exact onlyAddsCookies_id _

end DRFGeneralAPIs
